import Mathlib

/-
Verification development for the visual matching engine of
backend/ai_service.py (spare-part identification service).

The engine is shallowly embedded:
* floating-point values are modelled as real numbers (`ℝ`); quantities that
  never flow through transcendental functions (keypoint attributes, SIFT
  descriptors) are modelled as rationals (`ℚ`);
* external OpenCV routines (image decode, preprocessing, SIFT detection) are
  parameters of the embedding, collected in a `CVBackend` record; the FLANN
  k-nearest-neighbour matcher and the CLIP encoder are likewise passed as
  function parameters;
* fallible Python code is modelled with `Option` (a `None` result) and
  `Except` (an uncaught exception propagating to the caller).
-/

open scoped Classical

/-! ## Data model: keypoints and descriptors (ai_service.py lines 51-79)

`serialize_keypoints` records exactly the fields pt, size, angle, response,
octave and class_id of a cv2.KeyPoint, so the embedded keypoint carries the
same fields. -/

structure KeyPoint where
  pt : ℚ × ℚ
  size : ℚ
  angle : ℚ
  response : ℚ
  octave : ℤ
  class_id : ℤ

/-- A SIFT descriptor row (one fixed-length numeric vector per keypoint). -/
abbrev Desc := List ℚ

/-- Parameters passed to cv2.SIFT_create (lines 113-119 and 137-143). -/
structure SiftParams where
  nfeatures : ℕ
  nOctaveLayers : ℕ
  contrastThreshold : ℚ
  edgeThreshold : ℚ
  sigma : ℚ

/-- The external OpenCV operations used by `get_image_features_from_bytes`.
The image type is abstract; the engine never inspects pixels itself.
`imdecode` returns `none` for undecodable bytes (cv2.imdecode returning
None, line 89).  `siftDetectAndCompute` returns the detected keypoints and
an optional descriptor matrix (cv2 returns None when no descriptors could
be computed); `siftCompute` recomputes descriptors for a given keypoint
list (line 144). -/
structure CVBackend (Img : Type) where
  imdecode : List ℕ → Option Img
  cvtColorGray : Img → Img
  equalizeHist : Img → Img
  gaussianBlur : Img → ℕ × ℕ → ℚ → Img
  claheApply : ℚ → ℕ × ℕ → Img → Img
  siftDetectAndCompute : SiftParams → Img → List KeyPoint × Option (List Desc)
  siftCompute : SiftParams → Img → List KeyPoint → Option (List Desc)

/-- SIFT parameters for query images (lines 113-119): nfeatures = 5000,
nOctaveLayers = 3, contrastThreshold = 0.06, edgeThreshold = 10,
sigma = 1.6. -/
def siftQueryParams : SiftParams :=
  ⟨5000, 3, 6 / 100, 10, 16 / 10⟩

/-- SIFT parameters for the descriptor recomputation over the filtered
keypoints (lines 137-143): identical except nfeatures = 0 (unlimited). -/
def siftRecomputeParams : SiftParams :=
  ⟨0, 3, 6 / 100, 10, 16 / 10⟩

/-- Sort keypoints by response strength, strongest first (lines 130-131).
Python list.sort with reverse=True is a stable descending sort, which
`List.mergeSort` with a non-strict comparison reproduces: keypoints of
equal response keep their original detection order. -/
def sortKeypointsByResponse (kps : List KeyPoint) : List KeyPoint :=
  kps.mergeSort (fun a b => decide (b.response ≤ a.response))

/-- The preprocessing chain of lines 97-107: grayscale conversion,
histogram equalization, 3x3 Gaussian blur with sigma 0, CLAHE with
clipLimit 2.0 and tile grid 8x8. -/
def preprocess {Img : Type} (cv : CVBackend Img) (img : Img) : Img :=
  cv.claheApply 2 (8, 8) (cv.gaussianBlur (cv.equalizeHist (cv.cvtColorGray img)) (3, 3) 0)

/-- Embedding of `get_image_features_from_bytes` (lines 81-155).
Returns `none` exactly where the Python function returns (None, None):
undecodable bytes (line 91), fewer than 10 keypoints or a null descriptor
matrix (lines 123-125), and a null recomputed descriptor matrix on the
filter path (where line 151 would dereference descriptors.shape, raise, and
be caught by the enclosing except which returns (None, None)).
On the > 1000 keypoints path (lines 128-149) the keypoints are sorted by
response strength descending, the strongest 1000 are kept, and descriptors
are recomputed for exactly that reduced set; the recomputed keypoint list
returned by cv2 compute is discarded by the source (line 144 binds it to _),
so the descriptor count matching the kept keypoints relies on the cv2
contract of one descriptor row per input keypoint. -/
def get_image_features_from_bytes {Img : Type} (cv : CVBackend Img)
    (image_bytes : List ℕ) : Option (List KeyPoint × List Desc) :=
  match cv.imdecode image_bytes with
  | none => none
  | some img =>
    let gray := preprocess cv img
    match cv.siftDetectAndCompute siftQueryParams gray with
    | (_, none) => none
    | (keypoints, some descriptors) =>
      if keypoints.length < 10 then none
      else if 1000 < keypoints.length then
        let filtered_keypoints := (sortKeypointsByResponse keypoints).take 1000
        match cv.siftCompute siftRecomputeParams gray filtered_keypoints with
        | none => none
        | some filtered_descriptors => some (filtered_keypoints, filtered_descriptors)
      else some (keypoints, descriptors)

/-! ## Descriptor matcher and local similarity scorer (lines 157-260) -/

/-- One FLANN match candidate; only its distance is consumed by the ratio
test (lines 173-174). -/
structure RawMatch where
  distance : ℝ

/-- The logistic function used by both scorers (lines 188 and 240):
sigmoid x = 1 / (1 + exp (-x)). -/
noncomputable def sigmoid (x : ℝ) : ℝ :=
  1 / (1 + Real.exp (-x))

/-- Lowe ratio test over the knnMatch output (lines 170-175 with ratio 0.8,
lines 208-214 with ratio 0.7): a candidate pair is counted iff it has
exactly two members m, n and m.distance < ratio * n.distance. -/
noncomputable def countGood (ratioThreshold : ℝ) : List (List RawMatch) → ℕ
  | [] => 0
  | p :: rest =>
    (match p with
     | [m, n] => if m.distance < ratioThreshold * n.distance then 1 else 0
     | _ => 0) + countGood ratioThreshold rest

/-- The score computation of `compute_image_similarity` (lines 177-190):
normalize the good-match count by the smaller keypoint count and apply the
sigmoid with steepness 8 and midpoint 0.15; a zero minimum keypoint count
short-circuits to 0 (lines 180-181). -/
noncomputable def local_similarity_score (good qn sn : ℕ) : ℝ :=
  if min qn sn = 0 then 0
  else sigmoid (8 * ((good : ℝ) / ((min qn sn : ℕ) : ℝ) - 0.15))

/-- Embedding of `compute_image_similarity` (lines 157-194), the primary
matching path: null descriptors yield 0 (lines 162-163); otherwise the
FLANN matcher (an external parameter) is queried with k = 2, the 0.8 ratio
test is applied, and the score is computed from the good-match count and
the two keypoint counts.  The defensive try/except of lines 165-194, which
returns 0.0 only if the external matcher raises, is not modelled: the
matcher parameter is a total function. -/
noncomputable def compute_image_similarity
    (knnMatch : List Desc → List Desc → ℕ → List (List RawMatch))
    (query_keypoints : List KeyPoint) (query_descriptors : Option (List Desc))
    (stored_keypoints : List KeyPoint) (stored_descriptors : Option (List Desc)) : ℝ :=
  match query_descriptors, stored_descriptors with
  | some qd, some sd =>
    let good_matches := countGood 0.8 (knnMatch qd sd 2)
    local_similarity_score good_matches query_keypoints.length stored_keypoints.length
  | _, _ => 0

/-- The score computation of `compute_image_similarity_detailed`
(lines 217-242): blend the good-match count normalized by the smaller and
by the larger keypoint count with weights 0.7 / 0.3, then apply the same
sigmoid with steepness 8 and midpoint 0.15. -/
noncomputable def local_similarity_score_detailed (good qn sn : ℕ) : ℝ :=
  let smaller := min qn sn
  let larger := max qn sn
  if smaller = 0 then 0
  else
    let absolute_score : ℝ := (good : ℝ) / ((smaller : ℕ) : ℝ)
    let relative_score : ℝ := (good : ℝ) / ((larger : ℕ) : ℝ)
    sigmoid (8 * (0.7 * absolute_score + 0.3 * relative_score - 0.15))

/-- Score component of `compute_image_similarity_detailed` (lines 196-260),
the diagnostic path: strict 0.7 ratio test, blended 0.7 / 0.3 scoring.
The details dictionary assembled at lines 245-254 is diagnostic output and
is not modelled. -/
noncomputable def compute_image_similarity_detailed_score
    (knnMatch : List Desc → List Desc → ℕ → List (List RawMatch))
    (query_keypoints : List KeyPoint) (query_descriptors : Option (List Desc))
    (stored_keypoints : List KeyPoint) (stored_descriptors : Option (List Desc)) : ℝ :=
  match query_descriptors, stored_descriptors with
  | some qd, some sd =>
    let good_matches := countGood 0.7 (knnMatch qd sd 2)
    local_similarity_score_detailed good_matches query_keypoints.length stored_keypoints.length
  | _, _ => 0

/-- Modelled from the spec (section 4.3): the scorer the specification
claims for the primary matching path, namely
score = sigmoid (8 * (0.7 * (good / smaller) + 0.3 * (good / larger) - 0.15))
with the stated zero guards on smaller and larger.  Declared separately so
it can be compared with the scorers the source actually computes. -/
noncomputable def spec_scorer_blended (good qn sn : ℕ) : ℝ :=
  let smaller := min qn sn
  let larger := max qn sn
  let absolute : ℝ := if smaller = 0 then 0 else (good : ℝ) / ((smaller : ℕ) : ℝ)
  let relative : ℝ := if larger = 0 then 0 else (good : ℝ) / ((larger : ℕ) : ℝ)
  sigmoid (8 * (0.7 * absolute + 0.3 * relative - 0.15))

/-! ## Embedding comparator (lines 262-353)

CLIP embeddings are modelled as real vectors.  torch
F.cosine_similarity(x, y) is x.y / max (norm x * norm y) eps with
eps = 1e-8; a dimension mismatch between the two vectors raises inside the
try block and is caught, producing the 0.0 fallback (the corpus holds
fixed 512-dimensional embeddings, so the mismatch is the realistic
per-entry failure). -/

noncomputable def dotl (a b : List ℝ) : ℝ :=
  (List.zipWith (fun x y => x * y) a b).sum

noncomputable def clipEps : ℝ := 1e-8

/-- Cosine similarity as computed by torch F.cosine_similarity. -/
noncomputable def clip_cosine (a b : List ℝ) : ℝ :=
  dotl a b / max (Real.sqrt (dotl a a) * Real.sqrt (dotl b b)) clipEps

/-- Embedding of `compute_clip_similarity` (lines 307-326): null inputs
yield 0.0 (lines 312-313); otherwise cosine similarity is computed and
rescaled from [-1, 1] to [0, 1] via (cos + 1) / 2 (line 320); a dimension
mismatch raises and is caught (lines 324-326), yielding 0.0. -/
noncomputable def compute_clip_similarity (query_features stored_features : Option (List ℝ)) : ℝ :=
  match query_features, stored_features with
  | some qf, some sf =>
    if qf.length = sf.length then (clip_cosine qf sf + 1) / 2 else 0
  | _, _ => 0

/-- The details dictionary built at lines 343-347. -/
structure ClipDetails where
  cosine_similarity : ℝ
  normalized_similarity : ℝ
  feature_dimensions : ℕ

/-- Embedding of `compute_clip_similarity_detailed` (lines 328-353).
Returns the rescaled score together with the details dictionary; the empty
dictionary of the null-input path (lines 332-333) and of the caught
exception path (lines 351-353) is modelled as `none`. -/
noncomputable def compute_clip_similarity_detailed
    (query_features stored_features : Option (List ℝ)) : ℝ × Option ClipDetails :=
  match query_features, stored_features with
  | some qf, some sf =>
    if qf.length = sf.length then
      let cos := clip_cosine qf sf
      let sim := (cos + 1) / 2
      (sim, some ⟨cos, sim, qf.length⟩)
    else (0, none)
  | _, _ => (0, none)

/-! ## Corpus store and match orchestrator (lines 355-476) -/

/-- One element of part_image_embeddings_map.json, as written by
compute_clip_embeddings.py (fields part_id, material_number, description,
image_path); the orchestrator reads only material_number. -/
structure PartInfo where
  part_id : ℕ
  material_number : String
  description : String
  image_path : String

/-- One record of the feature archive part_image_embeddings.npy: a
dictionary holding the stored CLIP embedding under key clip_features
(line 420). -/
structure StoredFeature where
  clip_features : List ℝ

/-- The service state set up by AIService.__init__ / _load_features
(lines 356-376): both fields are populated on a successful load and both
are None when either companion file fails to load. -/
structure AIService where
  stored_features : Option (List StoredFeature)
  mapping : Option (List PartInfo)

/-- One result dictionary of the match list (lines 442-447). -/
structure MatchResult where
  material_number : String
  confidence_score : ℝ
  match_reason : String
  details : ClipDetails

/-- Uncaught Python exceptions that can escape `analyze_image`:
KeyError from indexing the empty details dictionary (line 431) and
IndexError from indexing the mapping list (lines 422 and 441). -/
inductive PyError where
  | keyError : PyError
  | indexError : PyError

/-- Rendering of the score inside the rationale f-string
(line 445, format specifier .3f): the score rounded to thousandths.  The
decimal-point presentation of Python float formatting is abstracted to the
integer number of thousandths. -/
noncomputable def fmt3 (s : ℝ) : String :=
  toString (round (s * 1000))

/-- The result dictionary literal of lines 442-447. -/
noncomputable def mkMatch (part_info : PartInfo) (sim_score : ℝ) (det : ClipDetails) : MatchResult :=
  ⟨part_info.material_number, sim_score,
   "CLIP semantic matching: " ++ fmt3 sim_score, det⟩

/-- The CLIP semantic threshold of line 434. -/
noncomputable def min_similarity_threshold : ℝ := 0.9

/-- Embedding of `AIService._fallback_analysis` (lines 469-472): disabled,
always returns no matches regardless of its arguments. -/
def fallback_analysis {α : Type} (ai_response : String) (spare_parts_data : List α) : List MatchResult :=
  []

/-- The corpus scan loop of lines 416-431, entry by entry with its running
index.  Per entry: line 422 indexes the mapping (IndexError when out of
range, uncaught), line 424 calls the detailed comparator, and line 431
indexes the returned details dictionary with key cosine_similarity, which
raises an uncaught KeyError exactly when the comparator failed and
returned the empty dictionary. -/
noncomputable def scanEntries (query_features : List ℝ) :
    List StoredFeature → List PartInfo → ℕ → Except PyError (List (ℝ × ClipDetails))
  | [], _, _ => .ok []
  | sf :: rest, mapping, i =>
    match mapping.get? i with
    | none => .error .indexError
    | some _ =>
      match compute_clip_similarity_detailed (some query_features) (some sf.clip_features) with
      | (_, none) => .error .keyError
      | (sim, some d) =>
        match scanEntries query_features rest mapping (i + 1) with
        | .error e => .error e
        | .ok tail => .ok ((sim, d) :: tail)

/-- The threshold filter loop of lines 438-447: every scanned entry whose
score reaches the threshold is turned into a result dictionary via the
mapping entry at the same index (line 441, IndexError when out of range,
uncaught). -/
noncomputable def buildValidMatches (mapping : List PartInfo) :
    ℕ → List (ℝ × ClipDetails) → Except PyError (List MatchResult)
  | _, [] => .ok []
  | idx, (sim_score, det) :: rest =>
    if min_similarity_threshold ≤ sim_score then
      match mapping.get? idx with
      | none => .error .indexError
      | some part_info =>
        match buildValidMatches mapping (idx + 1) rest with
        | .error e => .error e
        | .ok tail => .ok (mkMatch part_info sim_score det :: tail)
    else buildValidMatches mapping (idx + 1) rest

/-- The in-place sort of line 450: stable descending sort by confidence
score. -/
noncomputable def sortMatchesDesc (l : List MatchResult) : List MatchResult :=
  l.mergeSort (fun a b => decide (b.confidence_score ≤ a.confidence_score))

/-- Embedding of `AIService.analyze_image` (lines 390-467).  The CLIP
encoder `get_clip_features_from_bytes` is an external model call and is
passed as the parameter `clipExtract`; it returns `none` on failure
(lines 282-284).  Control flow: unavailable corpus store falls back
(lines 397-399, and the fallback returns []); failed query extraction
falls back (lines 409-411); otherwise every stored entry is scanned, the
entries reaching the 0.9 threshold are collected and sorted by confidence
descending, and only the single best entry is returned (lines 452-467).
The CLIP_AVAILABLE check of lines 401-403 only logs.  The
spare_parts_data argument flows only into the disabled fallback. -/
noncomputable def analyze_image {α : Type}
    (clipExtract : List ℕ → Option (List ℝ)) (svc : AIService)
    (image_data : List ℕ) (spare_parts_data : List α) : Except PyError (List MatchResult) :=
  match svc.stored_features, svc.mapping with
  | some stored, some mapping =>
    match clipExtract image_data with
    | none => .ok (fallback_analysis "" spare_parts_data)
    | some query_features =>
      match scanEntries query_features stored mapping 0 with
      | .error e => .error e
      | .ok results =>
        match buildValidMatches mapping 0 results with
        | .error e => .error e
        | .ok valid_matches =>
          match sortMatchesDesc valid_matches with
          | best :: _ => .ok [best]
          | [] => .ok []
  | _, _ => .ok (fallback_analysis "" spare_parts_data)

/-- The score `analyze_image` records for one corpus entry against the
query embedding (line 424): the first component of the detailed
comparator's output. -/
noncomputable def entryScore (query_features : List ℝ) (sf : StoredFeature) : ℝ :=
  (compute_clip_similarity_detailed (some query_features) (some sf.clip_features)).1

/-- What the reporting policy promises about a returned match: it comes
from a loaded corpus and a successfully embedded query, names a corpus
entry whose recorded score reaches the 0.9 threshold and is maximal over
all corpus entries, carries that score as its confidence, and embeds the
score in its rationale string. -/
def TopMatchSpec (clipExtract : List ℕ → Option (List ℝ)) (svc : AIService)
    (image_data : List ℕ) (m : MatchResult) : Prop :=
  ∃ stored mapping query_features k pi, ∃ hk : k < stored.length,
    svc.stored_features = some stored ∧
    svc.mapping = some mapping ∧
    clipExtract image_data = some query_features ∧
    mapping.get? k = some pi ∧
    m.material_number = pi.material_number ∧
    m.confidence_score = entryScore query_features (stored.get ⟨k, hk⟩) ∧
    min_similarity_threshold ≤ m.confidence_score ∧
    (∀ j (hj : j < stored.length),
      entryScore query_features (stored.get ⟨j, hj⟩) ≤ m.confidence_score) ∧
    m.match_reason = "CLIP semantic matching: " ++ fmt3 m.confidence_score

/-! ## Concrete fixtures used by witnesses and counterexamples -/

/-- A concrete keypoint. -/
def kp0 : KeyPoint := ⟨(0, 0), 1, 0, 1, 0, 0⟩

/-- A matcher returning no candidate pairs. -/
def emptyMatcher : List Desc → List Desc → ℕ → List (List RawMatch) :=
  fun _ _ _ => []

/-- A matcher returning one candidate pair with distances 1 and 2, which
passes the 0.8 ratio test (1 < 1.6). -/
noncomputable def oneMatcher : List Desc → List Desc → ℕ → List (List RawMatch) :=
  fun _ _ _ => [[⟨1⟩, ⟨2⟩]]

/-- A service whose corpus loaded but is empty. -/
def emptyCorpusService : AIService := ⟨some [], some []⟩

/-- An extractor that always succeeds with a one-dimensional embedding. -/
noncomputable def unitExtract : List ℕ → Option (List ℝ) :=
  fun _ => some [1]

/-- A mapping entry for the failing-scan scenario. -/
def c4PartInfo : PartInfo := ⟨1, "SP001", "Part SP001", "SP001/img.jpg"⟩

/-- A service holding one stored entry whose embedding has dimension 2. -/
noncomputable def c4Service : AIService := ⟨some [⟨[1, 2]⟩], some [c4PartInfo]⟩

/-- An extractor producing a three-dimensional query embedding, dimension
incompatible with the stored two-dimensional entry of `c4Service`. -/
noncomputable def c4Extract : List ℕ → Option (List ℝ) :=
  fun _ => some [1, 2, 3]

/-- A CV backend over a trivial image type: decoding always succeeds and
detection finds 10 keypoints with 10 descriptors. -/
def w8CV : CVBackend Unit where
  imdecode := fun _ => some ()
  cvtColorGray := id
  equalizeHist := id
  gaussianBlur := fun i _ _ => i
  claheApply := fun _ _ i => i
  siftDetectAndCompute := fun _ _ => (List.replicate 10 kp0, some (List.replicate 10 [1]))
  siftCompute := fun _ _ kps => some (kps.map fun _ => [1])

/-- A CV backend that decodes only the byte string [1] and whose detector
finds nothing. -/
def w9CV : CVBackend Bool where
  imdecode := fun b => if b = [1] then some true else none
  cvtColorGray := id
  equalizeHist := id
  gaussianBlur := fun i _ _ => i
  claheApply := fun _ _ i => i
  siftDetectAndCompute := fun _ _ => ([], none)
  siftCompute := fun _ _ _ => none

/-! ## Properties of the sigmoid -/

theorem sigmoid_pos (x : ℝ) : 0 < sigmoid x := by
  unfold sigmoid
  positivity

theorem sigmoid_lt_one (x : ℝ) : sigmoid x < 1 := by
  unfold sigmoid
  rw [div_lt_one (by positivity)]
  linarith [Real.exp_pos (-x)]

theorem sigmoid_strict_mono {x y : ℝ} (h : x < y) : sigmoid x < sigmoid y := by
  unfold sigmoid
  have hx : (0 : ℝ) < 1 + Real.exp (-y) := by positivity
  have hlt : 1 + Real.exp (-y) < 1 + Real.exp (-x) := by
    have := Real.exp_lt_exp.2 (neg_lt_neg h)
    linarith
  exact one_div_lt_one_div_of_lt hx hlt

/-- C5: for every valid query/reference pair (both descriptor sets
non-null, each with at least one keypoint), the Local Similarity Scorer's
output lies strictly in the open interval (0, 1) — never exactly 0 or 1. -/
theorem scorer_output_in_open_interval
    (knnMatch : List Desc → List Desc → ℕ → List (List RawMatch))
    (qk sk : List KeyPoint) (qd sd : List Desc)
    (hq : 0 < qk.length) (hs : 0 < sk.length) :
    0 < compute_image_similarity knnMatch qk (some qd) sk (some sd) ∧
    compute_image_similarity knnMatch qk (some qd) sk (some sd) < 1 := by
  have hmin : ¬ (min qk.length sk.length = 0) := by omega
  simp only [compute_image_similarity, local_similarity_score]
  rw [if_neg hmin]
  exact ⟨sigmoid_pos _, sigmoid_lt_one _⟩

/-- Witness for C5 at a concrete valid pair. -/
theorem scorer_output_in_open_interval_witness :
    0 < compute_image_similarity emptyMatcher [kp0] (some [[1]]) [kp0] (some [[1]]) ∧
    compute_image_similarity emptyMatcher [kp0] (some [[1]]) [kp0] (some [[1]]) < 1 :=
  scorer_output_in_open_interval emptyMatcher [kp0] [kp0] [[1]] [[1]] (by decide) (by decide)

/-- C6: holding the query and reference keypoint counts fixed (both
positive), the Local Similarity Scorer's output is strictly increasing in
the number of accepted correspondences. -/
theorem scorer_strictly_monotone_in_good (good qn sn : ℕ) (hq : 0 < qn) (hs : 0 < sn) :
    local_similarity_score good qn sn < local_similarity_score (good + 1) qn sn := by
  have hmin : ¬ (min qn sn = 0) := by omega
  have hmpos : (0 : ℝ) < ((min qn sn : ℕ) : ℝ) := by
    have : 0 < min qn sn := by omega
    exact_mod_cast this
  unfold local_similarity_score
  rw [if_neg hmin, if_neg hmin]
  apply sigmoid_strict_mono
  have hdiv : (good : ℝ) / ((min qn sn : ℕ) : ℝ) < ((good + 1 : ℕ) : ℝ) / ((min qn sn : ℕ) : ℝ) := by
    apply (div_lt_div_iff_of_pos_right hmpos).2
    exact_mod_cast Nat.lt_succ_self good
  push_cast at hdiv ⊢
  linarith

/-- Witness for C6 at a concrete triple. -/
theorem scorer_strictly_monotone_in_good_witness :
    local_similarity_score 2 3 5 < local_similarity_score (2 + 1) 3 5 :=
  scorer_strictly_monotone_in_good 2 3 5 (by decide) (by decide)

/-! ## C2: which formula does the primary matching path compute? -/

/-- Counterexample to C2 as stated: a query with 1 keypoint, a reference
with 2 keypoints and a single ratio-test-accepted correspondence (the one
candidate pair has distances 1 and 2, and 1 < 0.8 * 2).  The primary path
`compute_image_similarity` yields sigmoid (8 * (1 - 0.15)), whereas the
blended formula claimed for it yields
sigmoid (8 * (0.7 * 1 + 0.3 * (1 / 2) - 0.15)); the two differ because the
sigmoid is strictly monotone. -/
theorem primary_score_ne_blended_spec :
    compute_image_similarity oneMatcher [kp0] (some [[1]]) [kp0, kp0] (some [[1], [1]]) ≠
      spec_scorer_blended 1 1 2 := by
  have hL : compute_image_similarity oneMatcher [kp0] (some [[1]]) [kp0, kp0] (some [[1], [1]]) =
      sigmoid (8 * ((1 : ℝ) - 0.15)) := by
    simp only [compute_image_similarity, oneMatcher, countGood, local_similarity_score]
    rw [if_pos (show ((⟨1⟩ : RawMatch)).distance < 0.8 * ((⟨2⟩ : RawMatch)).distance by norm_num)]
    norm_num
  have hR : spec_scorer_blended 1 1 2 =
      sigmoid (8 * (0.7 * (1 : ℝ) + 0.3 * (1 / 2) - 0.15)) := by
    simp only [spec_scorer_blended]
    norm_num
  rw [hL, hR]
  exact ne_of_gt (sigmoid_strict_mono (by norm_num))

/-- C2 amended: the primary matching path computes
sigmoid (8 * (good / smaller - 0.15)) with no blending, while the blended
0.7 / 0.3 formula asserted by the claim is the one computed by the
detailed (diagnostic, 0.7-ratio-test) scorer. -/
theorem scorer_formulas_by_path (good qn sn : ℕ) (h : 0 < min qn sn) :
    local_similarity_score good qn sn =
      sigmoid (8 * ((good : ℝ) / ((min qn sn : ℕ) : ℝ) - 0.15)) ∧
    local_similarity_score_detailed good qn sn = spec_scorer_blended good qn sn := by
  have hmin : ¬ (min qn sn = 0) := by omega
  have hmax : ¬ (max qn sn = 0) := by omega
  constructor
  · unfold local_similarity_score
    rw [if_neg hmin]
  · simp only [local_similarity_score_detailed, spec_scorer_blended]
    rw [if_neg hmin, if_neg hmin, if_neg hmax]

/-- Witness for the amended C2 at a concrete triple. -/
theorem scorer_formulas_by_path_witness :
    local_similarity_score 1 1 2 =
      sigmoid (8 * (((1 : ℕ) : ℝ) / ((min 1 2 : ℕ) : ℝ) - 0.15)) ∧
    local_similarity_score_detailed 1 1 2 = spec_scorer_blended 1 1 2 :=
  scorer_formulas_by_path 1 1 2 (by decide)

/-! ## C7: embedding comparator symmetry -/

theorem dotl_comm (a b : List ℝ) : dotl a b = dotl b a := by
  unfold dotl
  rw [List.zipWith_comm_of_comm (fun x y => x * y) (fun x y => mul_comm x y)]

/-- C7: the Embedding Comparator is symmetric on unit-norm embeddings of
equal dimensionality, and its result is the cosine similarity rescaled by
(cos + 1) / 2. -/
theorem clip_similarity_symmetric (a b : List ℝ) (hlen : a.length = b.length)
    (hna : Real.sqrt (dotl a a) = 1) (hnb : Real.sqrt (dotl b b) = 1) :
    compute_clip_similarity (some a) (some b) = compute_clip_similarity (some b) (some a) ∧
    compute_clip_similarity (some a) (some b) = (clip_cosine a b + 1) / 2 := by
  constructor
  · simp only [compute_clip_similarity]
    rw [if_pos hlen, if_pos hlen.symm]
    unfold clip_cosine
    rw [dotl_comm a b, mul_comm (Real.sqrt (dotl a a)) (Real.sqrt (dotl b b))]
  · simp only [compute_clip_similarity]
    rw [if_pos hlen]

/-- Witness for C7 at two concrete orthogonal unit vectors. -/
theorem clip_similarity_symmetric_witness :
    compute_clip_similarity (some [1, 0]) (some [0, 1]) =
      compute_clip_similarity (some [0, 1]) (some [1, 0]) ∧
    compute_clip_similarity (some [1, 0]) (some [0, 1]) =
      (clip_cosine [1, 0] [0, 1] + 1) / 2 :=
  clip_similarity_symmetric [1, 0] [0, 1] rfl (by norm_num [dotl]) (by norm_num [dotl])

/-! ## C8, C9: keypoint extractor invariants -/

/-- C8: whenever the Keypoint Extractor returns a successful result, the
descriptor set has exactly one descriptor per returned keypoint, including
on the path where more than 1000 keypoints were detected and descriptors
were recomputed for only the 1000 highest-response keypoints (kept in
stable response-descending order).  The two hypotheses are the cv2
contracts that a non-null descriptor matrix produced by detectAndCompute,
respectively compute, has one row per keypoint. -/
theorem features_length_invariant {Img : Type} (cv : CVBackend Img)
    (hdc : ∀ p img kps ds, cv.siftDetectAndCompute p img = (kps, some ds) → ds.length = kps.length)
    (hcomp : ∀ p img kps ds, cv.siftCompute p img kps = some ds → ds.length = kps.length)
    (image_bytes : List ℕ) (kps : List KeyPoint) (ds : List Desc)
    (h : get_image_features_from_bytes cv image_bytes = some (kps, ds)) :
    ds.length = kps.length := by
  cases hdec : cv.imdecode image_bytes with
  | none => simp [get_image_features_from_bytes, hdec] at h
  | some img =>
    cases hdet : cv.siftDetectAndCompute siftQueryParams (preprocess cv img) with
    | mk kps0 dsOpt =>
      cases dsOpt with
      | none => simp [get_image_features_from_bytes, hdec, hdet] at h
      | some ds0 =>
        by_cases hlt : kps0.length < 10
        · simp [get_image_features_from_bytes, hdec, hdet, hlt] at h
        · by_cases hgt : 1000 < kps0.length
          · cases hcmp : cv.siftCompute siftRecomputeParams (preprocess cv img)
                ((sortKeypointsByResponse kps0).take 1000) with
            | none => simp [get_image_features_from_bytes, hdec, hdet, hlt, hgt, hcmp] at h
            | some fd =>
              have h2 : ((sortKeypointsByResponse kps0).take 1000 = kps ∧ fd = ds) := by
                simpa [get_image_features_from_bytes, hdec, hdet, hlt, hgt, hcmp] using h
              obtain ⟨rfl, rfl⟩ := h2
              exact hcomp _ _ _ _ hcmp
          · have h2 : (kps0 = kps ∧ ds0 = ds) := by
              simpa [get_image_features_from_bytes, hdec, hdet, hlt, hgt] using h
            obtain ⟨rfl, rfl⟩ := h2
            exact hdc _ _ _ _ hdet

/-- Witness for C8 at a concrete backend whose detector finds 10 keypoints
with 10 descriptor rows. -/
theorem features_length_invariant_witness :
    (List.replicate 10 ([1] : Desc)).length = (List.replicate 10 kp0).length :=
  features_length_invariant w8CV
    (by
      intro p img kps ds h
      obtain ⟨h1, h2⟩ := Prod.mk.injEq .. ▸ h
      obtain rfl := Option.some.injEq .. ▸ h2
      simp [← h1])
    (by
      intro p img kps ds h
      obtain rfl := Option.some.injEq .. ▸ h
      simp)
    [0] (List.replicate 10 kp0) (List.replicate 10 [1]) rfl

/-- C9: at the Keypoint Extractor's public interface, undecodable image
bytes and a successfully decoded image with fewer than 10 keypoints (or a
null descriptor matrix) produce the identical result value: the caller
cannot distinguish a decode failure from insufficient features by the
return value alone. -/
theorem decode_and_insufficient_indistinguishable {Img : Type} (cv : CVBackend Img)
    (b1 b2 : List ℕ) (img : Img)
    (h1 : cv.imdecode b1 = none)
    (h2 : cv.imdecode b2 = some img)
    (h3 : (∃ kps, cv.siftDetectAndCompute siftQueryParams (preprocess cv img) = (kps, none)) ∨
          (∃ kps ds, cv.siftDetectAndCompute siftQueryParams (preprocess cv img) = (kps, some ds) ∧
            kps.length < 10)) :
    get_image_features_from_bytes cv b1 = none ∧
    get_image_features_from_bytes cv b2 = none ∧
    get_image_features_from_bytes cv b1 = get_image_features_from_bytes cv b2 := by
  have e1 : get_image_features_from_bytes cv b1 = none := by
    simp [get_image_features_from_bytes, h1]
  have e2 : get_image_features_from_bytes cv b2 = none := by
    rcases h3 with ⟨kps, hd⟩ | ⟨kps, ds, hd, hlt⟩
    · simp [get_image_features_from_bytes, h2, hd]
    · simp [get_image_features_from_bytes, h2, hd, hlt]
  exact ⟨e1, e2, by rw [e1, e2]⟩

/-- Witness for C9: the byte string [] does not decode, the byte string
[1] decodes but yields no keypoints; both calls return none. -/
theorem decode_and_insufficient_indistinguishable_witness :
    get_image_features_from_bytes w9CV [] = none ∧
    get_image_features_from_bytes w9CV [1] = none ∧
    get_image_features_from_bytes w9CV [] = get_image_features_from_bytes w9CV [1] :=
  decode_and_insufficient_indistinguishable w9CV [] [1] true rfl rfl (Or.inl ⟨[], rfl⟩)

/-! ## Lemmas about the corpus scan, the threshold filter and the sort -/

theorem scanEntries_ok (query_features : List ℝ) (stored : List StoredFeature)
    (mapping : List PartInfo) (i : ℕ) (rs : List (ℝ × ClipDetails))
    (h : scanEntries query_features stored mapping i = .ok rs) :
    rs.length = stored.length ∧
    ∀ k (hk : k < rs.length) (hk2 : k < stored.length),
      (rs.get ⟨k, hk⟩).1 = entryScore query_features (stored.get ⟨k, hk2⟩) := by
  induction stored generalizing i rs with
  | nil =>
    simp only [scanEntries] at h
    injection h with h
    subst h
    exact ⟨rfl, by intro k hk hk2; simp at hk⟩
  | cons sf rest ih =>
    simp only [scanEntries] at h
    cases hget : mapping.get? i with
    | none => rw [hget] at h; exact absurd h (by simp)
    | some pi =>
      rw [hget] at h
      cases hcd : compute_clip_similarity_detailed (some query_features) (some sf.clip_features) with
      | mk sim dopt =>
        rw [hcd] at h
        cases dopt with
        | none => exact absurd h (by simp)
        | some d =>
          cases hrec : scanEntries query_features rest mapping (i + 1) with
          | error e => rw [hrec] at h; exact absurd h (by simp)
          | ok tail =>
            rw [hrec] at h
            simp only at h
            injection h with h
            subst h
            obtain ⟨ihlen, ihget⟩ := ih (i + 1) tail hrec
            refine ⟨by simp [ihlen], ?_⟩
            intro k hk hk2
            cases k with
            | zero =>
              show sim = entryScore query_features sf
              unfold entryScore
              rw [hcd]
            | succ k =>
              have hk' : k < tail.length := by simpa using hk
              have hk2' : k < rest.length := by simpa using hk2
              exact ihget k hk' hk2'

theorem buildValidMatches_mem (mapping : List PartInfo) (rs : List (ℝ × ClipDetails)) (i : ℕ)
    (l : List MatchResult) (h : buildValidMatches mapping i rs = .ok l) :
    ∀ m ∈ l, ∃ k, ∃ hk : k < rs.length, ∃ pi,
      mapping.get? (i + k) = some pi ∧
      min_similarity_threshold ≤ (rs.get ⟨k, hk⟩).1 ∧
      m = mkMatch pi (rs.get ⟨k, hk⟩).1 (rs.get ⟨k, hk⟩).2 := by
  induction rs generalizing i l with
  | nil =>
    simp only [buildValidMatches] at h
    injection h with h
    subst h
    intro m hm
    simp at hm
  | cons p rest ih =>
    obtain ⟨sim, det⟩ := p
    simp only [buildValidMatches] at h
    by_cases hthr : min_similarity_threshold ≤ sim
    · rw [if_pos hthr] at h
      cases hget : mapping.get? i with
      | none => rw [hget] at h; exact absurd h (by simp)
      | some pi =>
        rw [hget] at h
        cases hrec : buildValidMatches mapping (i + 1) rest with
        | error e => rw [hrec] at h; exact absurd h (by simp)
        | ok tail =>
          rw [hrec] at h
          simp only at h
          injection h with h
          subst h
          intro m hm
          rcases List.mem_cons.1 hm with rfl | hm2
          · exact ⟨0, by simp, pi, by simpa using hget, hthr, rfl⟩
          · obtain ⟨k, hk, pi2, hget2, hthr2, hmk⟩ := ih (i + 1) tail hrec m hm2
            refine ⟨k + 1, by simpa using hk, pi2, ?_, hthr2, hmk⟩
            rw [show i + (k + 1) = i + 1 + k by omega]
            exact hget2
    · rw [if_neg hthr] at h
      intro m hm
      obtain ⟨k, hk, pi2, hget2, hthr2, hmk⟩ := ih (i + 1) l h m hm
      refine ⟨k + 1, by simpa using hk, pi2, ?_, hthr2, hmk⟩
      rw [show i + (k + 1) = i + 1 + k by omega]
      exact hget2

theorem buildValidMatches_complete (mapping : List PartInfo) (rs : List (ℝ × ClipDetails)) (i : ℕ)
    (l : List MatchResult) (h : buildValidMatches mapping i rs = .ok l) :
    ∀ k (hk : k < rs.length), min_similarity_threshold ≤ (rs.get ⟨k, hk⟩).1 →
      ∃ pi, mapping.get? (i + k) = some pi ∧
        mkMatch pi (rs.get ⟨k, hk⟩).1 (rs.get ⟨k, hk⟩).2 ∈ l := by
  induction rs generalizing i l with
  | nil =>
    intro k hk
    simp at hk
  | cons p rest ih =>
    obtain ⟨sim, det⟩ := p
    simp only [buildValidMatches] at h
    by_cases hthr : min_similarity_threshold ≤ sim
    · rw [if_pos hthr] at h
      cases hget : mapping.get? i with
      | none => rw [hget] at h; exact absurd h (by simp)
      | some pi =>
        rw [hget] at h
        cases hrec : buildValidMatches mapping (i + 1) rest with
        | error e => rw [hrec] at h; exact absurd h (by simp)
        | ok tail =>
          rw [hrec] at h
          simp only at h
          injection h with h
          subst h
          intro k hk hthrk
          cases k with
          | zero =>
            exact ⟨pi, by simpa using hget, List.mem_cons_self _ _⟩
          | succ k =>
            have hk' : k < rest.length := by simpa using hk
            obtain ⟨pi2, hget2, hmem2⟩ := ih (i + 1) tail hrec k hk' hthrk
            refine ⟨pi2, ?_, List.mem_cons_of_mem _ hmem2⟩
            rw [show i + (k + 1) = i + 1 + k by omega]
            exact hget2
    · rw [if_neg hthr] at h
      intro k hk hthrk
      cases k with
      | zero => exact absurd hthrk hthr
      | succ k =>
        have hk' : k < rest.length := by simpa using hk
        obtain ⟨pi2, hget2, hmem2⟩ := ih (i + 1) l h k hk' hthrk
        refine ⟨pi2, ?_, hmem2⟩
        rw [show i + (k + 1) = i + 1 + k by omega]
        exact hget2

theorem sortMatchesDesc_perm (l : List MatchResult) : (sortMatchesDesc l).Perm l :=
  List.mergeSort_perm l _

theorem sortMatchesDesc_head_max (l : List MatchResult) (b : MatchResult)
    (rest : List MatchResult) (h : sortMatchesDesc l = b :: rest) :
    ∀ m ∈ l, m.confidence_score ≤ b.confidence_score := by
  intro m hm
  have hm2 : m ∈ sortMatchesDesc l := ((sortMatchesDesc_perm l).mem_iff).2 hm
  rw [h] at hm2
  rcases List.mem_cons.1 hm2 with rfl | hm3
  · exact le_refl _
  · have hsorted : List.Pairwise
        (fun x y : MatchResult => (decide (y.confidence_score ≤ x.confidence_score)) = true)
        (sortMatchesDesc l) := by
      unfold sortMatchesDesc
      exact List.sorted_mergeSort
        (fun a b c hab hbc => by
          simp only [decide_eq_true_eq] at hab hbc ⊢
          exact le_trans hbc hab)
        (fun a b => by
          simp only [Bool.or_eq_true, decide_eq_true_eq]
          exact le_total _ _)
        l
    rw [h] at hsorted
    have hb := (List.pairwise_cons.1 hsorted).1 m hm3
    simpa using hb

/-! ## C1, C3, C4, C10: the match orchestrator -/

/-- C1: whenever `analyze_image` returns a match list, that list has at
most one element, and a returned match names a corpus entry whose rescaled
CLIP similarity to the query is at least the 0.9 threshold and is maximal
over all corpus entries; its confidence equals that similarity and its
rationale string embeds the numeric score. -/
theorem analyze_image_top1 {α : Type} (clipExtract : List ℕ → Option (List ℝ))
    (svc : AIService) (image_data : List ℕ) (spare_parts_data : List α)
    (ms : List MatchResult)
    (h : analyze_image clipExtract svc image_data spare_parts_data = .ok ms) :
    ms.length ≤ 1 ∧ ∀ m ∈ ms, TopMatchSpec clipExtract svc image_data m := by
  obtain ⟨sfOpt, mpOpt⟩ := svc
  cases sfOpt with
  | none =>
    simp [analyze_image, fallback_analysis] at h
    subst h
    exact ⟨by simp, by simp⟩
  | some stored =>
    cases mpOpt with
    | none =>
      simp [analyze_image, fallback_analysis] at h
      subst h
      exact ⟨by simp, by simp⟩
    | some mapping =>
      cases hext : clipExtract image_data with
      | none =>
        simp [analyze_image, fallback_analysis, hext] at h
        subst h
        exact ⟨by simp, by simp⟩
      | some query_features =>
        cases hscan : scanEntries query_features stored mapping 0 with
        | error e => simp [analyze_image, hext, hscan] at h
        | ok results =>
          cases hbuild : buildValidMatches mapping 0 results with
          | error e => simp [analyze_image, hext, hscan, hbuild] at h
          | ok valid_matches =>
            cases hsort : sortMatchesDesc valid_matches with
            | nil =>
              simp [analyze_image, hext, hscan, hbuild, hsort] at h
              subst h
              exact ⟨by simp, by simp⟩
            | cons best rest =>
              simp [analyze_image, hext, hscan, hbuild, hsort] at h
              subst h
              refine ⟨by simp, ?_⟩
              intro m hm
              have hmb : m = best := by simpa using hm
              subst hmb
              have hbv : m ∈ valid_matches :=
                ((sortMatchesDesc_perm valid_matches).mem_iff).1
                  (by rw [hsort]; exact List.mem_cons_self _ _)
              obtain ⟨hlen, hscores⟩ := scanEntries_ok query_features stored mapping 0 results hscan
              obtain ⟨k, hk, pi, hget, hthr, hmk⟩ :=
                buildValidMatches_mem mapping results 0 valid_matches hbuild m hbv
              have hk2 : k < stored.length := by omega
              have hconf : m.confidence_score = (results.get ⟨k, hk⟩).1 := by
                rw [hmk]; simp [mkMatch]
              refine ⟨stored, mapping, query_features, k, pi, hk2, rfl, rfl, hext,
                by simpa using hget, ?_, ?_, ?_, ?_, ?_⟩
              · rw [hmk]; simp [mkMatch]
              · rw [hconf]
                exact hscores k hk hk2
              · rw [hconf]
                exact hthr
              · intro j hj
                have hj1 : j < results.length := by omega
                have hsc := hscores j hj1 hj
                by_cases hcase : min_similarity_threshold ≤ (results.get ⟨j, hj1⟩).1
                · obtain ⟨pi2, hget2, hmem2⟩ :=
                    buildValidMatches_complete mapping results 0 valid_matches hbuild j hj1 hcase
                  have hle := sortMatchesDesc_head_max valid_matches m rest hsort _ hmem2
                  rw [← hsc]
                  simpa [mkMatch] using hle
                · rw [← hsc]
                  have hlt : (results.get ⟨j, hj1⟩).1 < min_similarity_threshold :=
                    lt_of_not_le hcase
                  have hge : min_similarity_threshold ≤ m.confidence_score := by
                    rw [hconf]; exact hthr
                  linarith
              · rw [hmk]; simp [mkMatch]

/-- Witness for C1: an empty loaded corpus yields the empty match list. -/
theorem analyze_image_top1_witness :
    ([] : List MatchResult).length ≤ 1 ∧
    ∀ m ∈ ([] : List MatchResult), TopMatchSpec unitExtract emptyCorpusService [] m :=
  analyze_image_top1 unitExtract emptyCorpusService [] ([] : List Unit) []
    (by simp [analyze_image, unitExtract, emptyCorpusService, scanEntries, buildValidMatches,
      sortMatchesDesc, List.mergeSort_nil])

/-- C3: if the corpus store failed to load, or CLIP feature extraction of
the query returns null, then `analyze_image` returns the empty list for
every query image and every spare-parts argument, and never raises. -/
theorem analyze_image_unavailable_empty {α : Type} (clipExtract : List ℕ → Option (List ℝ))
    (svc : AIService) (image_data : List ℕ) (spare_parts_data : List α)
    (h : svc.stored_features = none ∨ svc.mapping = none ∨ clipExtract image_data = none) :
    analyze_image clipExtract svc image_data spare_parts_data = .ok [] := by
  obtain ⟨sfOpt, mpOpt⟩ := svc
  rcases h with h | h | h
  · have h2 : sfOpt = none := h
    subst h2
    simp [analyze_image, fallback_analysis]
  · have h2 : mpOpt = none := h
    subst h2
    cases sfOpt <;> simp [analyze_image, fallback_analysis]
  · cases sfOpt with
    | none => simp [analyze_image, fallback_analysis]
    | some stored =>
      cases mpOpt with
      | none => simp [analyze_image, fallback_analysis]
      | some mapping => simp [analyze_image, fallback_analysis, h]

/-- Witness for C3 at a concrete unloaded service. -/
theorem analyze_image_unavailable_empty_witness :
    analyze_image unitExtract (AIService.mk none none) [] ([] : List Unit) = .ok [] :=
  analyze_image_unavailable_empty unitExtract (AIService.mk none none) [] ([] : List Unit)
    (Or.inl rfl)

/-- C4, the code's actual behaviour at a failing per-entry comparison: the
detailed comparator catches the failure and returns score 0 with an empty
details dictionary, but line 431 of analyze_image then indexes that empty
dictionary, so the scan aborts with an uncaught KeyError instead of
recording score 0 and continuing.  Failing input: a corpus whose first
stored embedding has dimension 2 while the query embedding has
dimension 3. -/
theorem scan_failure_aborts_analyze :
    analyze_image c4Extract c4Service [0] ([] : List Unit) = .error .keyError := by
  simp [analyze_image, c4Extract, c4Service, scanEntries, compute_clip_similarity_detailed]

/-- C10: the match list is independent of the spare_parts_data argument;
that argument flows only into the disabled fallback path, which returns
the empty list. -/
theorem analyze_image_independent_of_spare_parts {α : Type}
    (clipExtract : List ℕ → Option (List ℝ)) (svc : AIService) (image_data : List ℕ)
    (sp1 sp2 : List α) :
    analyze_image clipExtract svc image_data sp1 = analyze_image clipExtract svc image_data sp2 := by
  obtain ⟨sfOpt, mpOpt⟩ := svc
  cases sfOpt with
  | none => rfl
  | some stored =>
    cases mpOpt with
    | none => rfl
    | some mapping =>
      cases clipExtract image_data with
      | none => rfl
      | some query_features => rfl
